import Mathlib

/-!
# Verification of the tlc5940-rs LED driver crate

Shallow embedding of the crate's four source files:

* `src/error.rs`    — the `Error` enum;
* `src/unconnected.rs` — the always-failing `Unconnected` null pin;
* `src/lib.rs`      — the `TLC5940` driver state and its methods
  (`blank`, `set_level`, `set_levels`, `update`, `new`);
* `src/connectors.rs` — the `Connector` transports: `PinConnector`
  (bit-banged), `SpiConnector` (hardware chip select) and
  `SpiConnectorSW` (software chip select).

Modelling conventions: Rust machine integers (`u8`, `u16`, `usize`)
become `Nat`; the bit mask `level & 0x0fff` is written with `&&&`
exactly as in the source. A Rust method on `&mut self` returning
`Result<(), Error>` becomes a pure function `σ → σ × Option Error`
(the state after the call, paired with `none` for `Ok(())` and
`some e` for `Err(e)`); the `?` operator becomes the short-circuit
combinator `bindE`. External capabilities (GPIO pins and the SPI
writer) are modelled as explicit state machines that record the
sequence of operations performed on them and consult a fault schedule
`fails : Nat → Bool` (indexed by an operation counter) to decide
whether each primitive operation succeeds, so that both the
success-path traces and the error-propagation paths of the driver are
observable.
-/

/-- `Error` enum from `src/error.rs`. -/
inductive Error where
  | NotConnected
  | OutOfRange
  | Spi
  | Pin
deriving DecidableEq, Repr

/-- Short-circuiting sequencing of fallible state transformers: the
embedding of Rust's `?` operator on `Result` for `&mut self` methods. -/
def bindE {σ : Type} (r : σ × Option Error) (f : σ → σ × Option Error) :
    σ × Option Error :=
  match r with
  | (s, some e) => (s, some e)
  | (s, none) => f s

/-- `TLC5940` struct from `src/lib.rs` (lines 31–54): a connector, the
blanking pin, the `xerr` pin, the 16-entry dot-correction array and the
16-entry grayscale array. The pins and the connector stay abstract type
parameters, exactly as in the generic Rust struct. -/
structure TLC5940 (C B X : Type) where
  connector : C
  blank_pin : B
  xerr_pin : X
  dot_correction : List Nat
  grayscale_values : List Nat
deriving DecidableEq, Repr

/-- Operations of the `embedded_hal` `OutputPin` trait for a pin of
state type `B`: each returns the updated pin together with `none` on
success or `some e` on failure. -/
structure OutputPinOps (B : Type) where
  set_high : B → B × Option Error
  set_low : B → B × Option Error

/-- `Unconnected` struct from `src/unconnected.rs`: a stateless stand-in
pin. -/
structure Unconnected where
deriving DecidableEq, Repr

/-- `impl OutputPin for Unconnected` (`src/unconnected.rs` lines 21–28):
both `set_low` and `set_high` return `Err(Error::NotConnected)` and
change nothing. -/
def unconnectedOps : OutputPinOps Unconnected where
  set_high := fun p => (p, some Error.NotConnected)
  set_low := fun p => (p, some Error.NotConnected)

/-- `TLC5940::blank` (`src/lib.rs` lines 76–92). The source calls
`self.blank_pin.set_high()` (or `set_low`) and **discards** the
returned `Result` (the commented-out code and the `TODO` about error
conversions are not compiled), then returns `Ok(())`. -/
def TLC5940.blank {C B X : Type} (ops : OutputPinOps B)
    (d : TLC5940 C B X) (is_blank : Bool) : TLC5940 C B X × Option Error :=
  let r := if is_blank then ops.set_high d.blank_pin else ops.set_low d.blank_pin
  ({ d with blank_pin := r.1 }, none)

/-- `TLC5940::set_level` (`src/lib.rs` lines 102–112): reject
`output >= 16` with `Error::OutOfRange`, otherwise store
`level & 0x0fff` into the grayscale array at index `output`. -/
def TLC5940.set_level {C B X : Type} (d : TLC5940 C B X)
    (output : Nat) (level : Nat) : TLC5940 C B X × Option Error :=
  if output ≥ 16 then
    (d, some Error.OutOfRange)
  else
    ({ d with
        grayscale_values := d.grayscale_values.set output (level &&& 0x0fff) },
      none)

/-- Loop body of `TLC5940::set_levels` (`src/lib.rs` lines 115–120):
`for (idx, level) in levels.iter().enumerate() { self.set_level(idx as u8, *level)?; }`,
with the running index made explicit. -/
def TLC5940.set_levels_go {C B X : Type} :
    Nat → TLC5940 C B X → List Nat → TLC5940 C B X × Option Error
  | _, d, [] => (d, none)
  | idx, d, l :: rest =>
    match TLC5940.set_level d idx l with
    | (d2, none) => TLC5940.set_levels_go (idx + 1) d2 rest
    | (d2, some e) => (d2, some e)

/-- `TLC5940::set_levels` (`src/lib.rs` lines 115–120). -/
def TLC5940.set_levels {C B X : Type} (d : TLC5940 C B X)
    (levels : List Nat) : TLC5940 C B X × Option Error :=
  TLC5940.set_levels_go 0 d levels

/-- `TLC5940::new` (`src/lib.rs` lines 145–160): both channel arrays are
zero-initialised; `init` does nothing and returns `Ok(())`. -/
def TLC5940.new {C B X : Type} (connector : C) (blank_pin : B)
    (xerr_pin : X) : TLC5940 C B X × Option Error :=
  (⟨connector, blank_pin, xerr_pin, List.replicate 16 0, List.replicate 16 0⟩,
    none)

/-- A concrete driver state used for concrete evaluations: the state
produced by `TLC5940::new` with unit connector and pins. -/
def d0 : TLC5940 Unit Unit Unit := (TLC5940.new () () ()).1

/-- C4: for every index `i < 16` and 16-bit value `v`, `set_level i v`
succeeds and stores `v &&& 0x0fff` (upper 4 bits discarded) into slot
`i` of the grayscale array. -/
theorem set_level_stores_masked {C B X : Type} (d : TLC5940 C B X)
    (i v : Nat) (hi : i < 16) (_hv : v < 65536)
    (hlen : d.grayscale_values.length = 16) :
    TLC5940.set_level d i v =
      ({ d with grayscale_values := d.grayscale_values.set i (v &&& 0x0fff) },
        none) ∧
    ((TLC5940.set_level d i v).1.grayscale_values.get? i = some (v &&& 0x0fff)) := by
  have hnot : ¬ i ≥ 16 := by omega
  have hil : i < d.grayscale_values.length := by omega
  constructor
  · simp [TLC5940.set_level, hnot]
  · simp only [TLC5940.set_level, hnot, if_false, List.get?_eq_getElem?]
    exact List.getElem?_set_eq_of_lt _ hil

/-- C4 witness: concrete instantiation at `i = 3`, `v = 0xABCD`. -/
theorem set_level_stores_masked_witness :
    TLC5940.set_level d0 3 0xABCD =
      ({ d0 with grayscale_values := d0.grayscale_values.set 3 (0xABCD &&& 0x0fff) },
        none) ∧
    ((TLC5940.set_level d0 3 0xABCD).1.grayscale_values.get? 3 =
      some (0xABCD &&& 0x0fff)) :=
  set_level_stores_masked d0 3 0xABCD (by decide) (by decide) (by decide)

/-- C5 counterexample: storing the 13-bit value `0x1000 = 4096` through
`set_level` records `0`, not the raw value `4096`: the source masks with
`0x0fff` at **store** time (`src/lib.rs` line 110), so the claim that
the raw value is stored unmodified is false. -/
theorem set_level_masks_at_store_counterexample :
    (TLC5940.set_level d0 0 4096).1.grayscale_values.get? 0 = some 0 ∧
    (0 : Nat) ≠ 4096 := by
  constructor
  · rfl
  · decide

/-- C5 (amended): masking to 12 bits happens at store time: for every
in-range index, `set_level` records `v &&& 0x0fff`, and calling
`set_level` with `v` is indistinguishable from calling it with the
already-masked value. -/
theorem set_level_masks_at_store {C B X : Type} (d : TLC5940 C B X)
    (i v : Nat) (hi : i < 16) (hlen : d.grayscale_values.length = 16) :
    (TLC5940.set_level d i v).1.grayscale_values.get? i = some (v &&& 0x0fff) ∧
    TLC5940.set_level d i v = TLC5940.set_level d i (v &&& 0x0fff) := by
  have hnot : ¬ i ≥ 16 := by omega
  have hil : i < d.grayscale_values.length := by omega
  constructor
  · simp only [TLC5940.set_level, hnot, if_false, List.get?_eq_getElem?]
    exact List.getElem?_set_eq_of_lt _ hil
  · simp [TLC5940.set_level, Nat.and_assoc]

/-- C5 witness: concrete instantiation at `i = 0`, `v = 4096`. -/
theorem set_level_masks_at_store_witness :
    (TLC5940.set_level d0 0 4096).1.grayscale_values.get? 0 =
      some (4096 &&& 0x0fff) ∧
    TLC5940.set_level d0 0 4096 = TLC5940.set_level d0 0 (4096 &&& 0x0fff) :=
  set_level_masks_at_store d0 0 4096 (by decide) (by decide)

/-- C6: for every index `i ≥ 16`, `set_level` returns
`Error::OutOfRange` and the entire driver state — in particular both
the grayscale and the dot-correction array — is unchanged. -/
theorem set_level_out_of_range {C B X : Type} (d : TLC5940 C B X)
    (i v : Nat) (hi : 16 ≤ i) :
    TLC5940.set_level d i v = (d, some Error.OutOfRange) := by
  simp [TLC5940.set_level, hi]

/-- C6 witness: concrete instantiation at `i = 16`. -/
theorem set_level_out_of_range_witness :
    TLC5940.set_level d0 16 7 = (d0, some Error.OutOfRange) :=
  set_level_out_of_range d0 16 7 (by decide)

/-- Frame helper: `set_levels_go` never touches the dot-correction
array, the connector or the pins, for any starting index. -/
theorem set_levels_go_frame {C B X : Type} (levels : List Nat) :
    ∀ (idx : Nat) (d : TLC5940 C B X),
      (TLC5940.set_levels_go idx d levels).1.dot_correction = d.dot_correction ∧
      (TLC5940.set_levels_go idx d levels).1.connector = d.connector ∧
      (TLC5940.set_levels_go idx d levels).1.blank_pin = d.blank_pin ∧
      (TLC5940.set_levels_go idx d levels).1.xerr_pin = d.xerr_pin := by
  induction levels with
  | nil => intro idx d; simp [TLC5940.set_levels_go]
  | cons l rest ih =>
    intro idx d
    simp only [TLC5940.set_levels_go]
    by_cases h : idx ≥ 16
    · simp [TLC5940.set_level, h]
    · simpa [TLC5940.set_level, h] using ih (idx + 1) _

/-- C9: `set_level` and `set_levels` mutate at most the grayscale
array: the dot-correction array, the connector and both pins are left
unchanged, whether the call succeeds or fails. -/
theorem set_level_frame {C B X : Type} (d : TLC5940 C B X) (i v : Nat)
    (levels : List Nat) :
    ((TLC5940.set_level d i v).1.dot_correction = d.dot_correction ∧
     (TLC5940.set_level d i v).1.connector = d.connector ∧
     (TLC5940.set_level d i v).1.blank_pin = d.blank_pin ∧
     (TLC5940.set_level d i v).1.xerr_pin = d.xerr_pin) ∧
    ((TLC5940.set_levels d levels).1.dot_correction = d.dot_correction ∧
     (TLC5940.set_levels d levels).1.connector = d.connector ∧
     (TLC5940.set_levels d levels).1.blank_pin = d.blank_pin ∧
     (TLC5940.set_levels d levels).1.xerr_pin = d.xerr_pin) := by
  constructor
  · by_cases h : i ≥ 16 <;> simp [TLC5940.set_level, h]
  · exact set_levels_go_frame levels 0 d

/-- Specification-side reading of C7: "16 sequential `set_level(i, values[i])`
calls in ascending index order 0..15", keeping each call's resulting
state and discarding its `Result`. -/
def sequential_set_levels {C B X : Type} (d : TLC5940 C B X)
    (values : List Nat) : TLC5940 C B X :=
  (List.range 16).foldl (fun acc i => (TLC5940.set_level acc i (values.getD i 0)).1) d

set_option maxHeartbeats 2000000 in
/-- C7: for every 16-element array of values, `set_levels` succeeds and
produces exactly the final state of 16 sequential `set_level` calls in
ascending index order. -/
theorem set_levels_eq_sequential {C B X : Type} (d : TLC5940 C B X)
    (levels : List Nat) (hlen : levels.length = 16)
    (hval : ∀ v ∈ levels, v ≤ 4095) :
    TLC5940.set_levels d levels = (sequential_set_levels d levels, none) := by
  rcases levels with _ | ⟨a0, _ | ⟨a1, _ | ⟨a2, _ | ⟨a3, _ | ⟨a4, _ | ⟨a5,
    _ | ⟨a6, _ | ⟨a7, _ | ⟨a8, _ | ⟨a9, _ | ⟨a10, _ | ⟨a11, _ | ⟨a12,
    _ | ⟨a13, _ | ⟨a14, _ | ⟨a15, _ | ⟨a16, rest⟩⟩⟩⟩⟩⟩⟩⟩⟩⟩⟩⟩⟩⟩⟩⟩⟩ <;>
    first
      | (simp only [List.length_cons, List.length_nil] at hlen; omega)
      | (simp [TLC5940.set_levels, TLC5940.set_levels_go, TLC5940.set_level,
               sequential_set_levels, List.range_succ])

/-- C7 witness: concrete instantiation on the driver state `d0` and the
16-element value list `[0, 1, ..., 15]`. -/
theorem set_levels_eq_sequential_witness :
    TLC5940.set_levels d0 [0, 1, 2, 3, 4, 5, 6, 7, 8, 9, 10, 11, 12, 13, 14, 15] =
      (sequential_set_levels d0
        [0, 1, 2, 3, 4, 5, 6, 7, 8, 9, 10, 11, 12, 13, 14, 15], none) :=
  set_levels_eq_sequential d0 _ (by decide) (by decide)

/-- C2: the code discards the blank pin's write result. At the pin
level, `Unconnected::set_high` does return `Err(Error::NotConnected)`
(second conjunct), but `TLC5940::blank` drops that `Result` on the
floor and returns `Ok(())` for every driver built with the null blank
pin (first conjunct) — the error does not propagate, contradicting both
the claim and the method's own doc comment. -/
theorem blank_unconnected_returns_ok {C X : Type} (d : TLC5940 C Unconnected X) :
    TLC5940.blank unconnectedOps d true = (d, none) ∧
    unconnectedOps.set_high d.blank_pin = (d.blank_pin, some Error.NotConnected) := by
  constructor
  · rfl
  · rfl

/-- A connector state that records every buffer handed to `write_raw`:
the list of byte sequences sent so far. -/
abbrev RecorderConnector : Type := List (List Nat)

/-- `write_raw` of the recording connector: append the buffer to the
log and succeed. -/
def recordWrite (c : RecorderConnector) (data : List Nat) :
    RecorderConnector × Option Error :=
  (c ++ [data], none)

/-- Outcome of `TLC5940::update`: the source ends in `todo!()`, which
panics unconditionally, so the only possible outcome is a panic. -/
inductive UpdateOutcome where
  | panicked
deriving DecidableEq, Repr

/-- `TLC5940::update` (`src/lib.rs` lines 123–130): allocates
`let mut packed = [0_u8; 6];` (six zero bytes — the comment says
24-byte array, the code says 6), calls
`self.connector.write_raw(&packed)` discarding its `Result`, then hits
`todo!()`, which panics. The grayscale values are never read. -/
def TLC5940.update {B X : Type}
    (d : TLC5940 RecorderConnector B X) :
    TLC5940 RecorderConnector B X × UpdateOutcome :=
  let packed : List Nat := List.replicate 6 0
  let r := recordWrite d.connector packed
  ({ d with connector := r.1 }, UpdateOutcome.panicked)

/-- C1: for every driver state — whatever the 16 stored grayscale
values are — `update` hands the connector the constant buffer of 6 zero
bytes (not a 24-byte packed image of the grayscale array) and then
panics (`todo!()`). The buffer length is 6, not 24. -/
theorem update_sends_six_zero_bytes_and_panics {B X : Type}
    (d : TLC5940 RecorderConnector B X) :
    (TLC5940.update d).1.connector = d.connector ++ [List.replicate 6 0] ∧
    (TLC5940.update d).2 = UpdateOutcome.panicked ∧
    (List.replicate 6 (0 : Nat)).length = 6 ∧
    ((List.replicate 6 (0 : Nat)).length = 24 → False) := by
  refine ⟨rfl, rfl, rfl, ?_⟩
  decide

/-- Abstract state of the external `embedded_hal` SPI writer capability
(`SPI: Write<u8>`): a log of the byte sequences written so far, an
operation counter, and a fault schedule deciding which write attempts
fail. Its own error type is opaque to the driver, so a failure is just
`some ()`. -/
structure SpiState where
  count : Nat
  writes : List (List Nat)
  fails : Nat → Bool

/-- One call of `spi.write(data)`: consult the fault schedule; on
success append `data` to the log. -/
def SpiState.write (s : SpiState) (data : List Nat) : SpiState × Option Unit :=
  if s.fails s.count then
    ({ s with count := s.count + 1 }, some ())
  else
    ({ count := s.count + 1, writes := s.writes ++ [data], fails := s.fails },
      none)

/-- `SpiConnector` struct from `src/connectors.rs` (lines 73–80):
device count, the 2-byte scratch buffer, and the SPI writer. -/
structure SpiConnector where
  devices : Nat
  buffer : List Nat
  spi : SpiState

/-- `impl Connector for SpiConnector` (`src/connectors.rs` lines
100–104): `self.spi.write(data).map_err(|_| Error::Spi)?; Ok(())`. -/
def SpiConnector.write_raw (c : SpiConnector) (data : List Nat) :
    SpiConnector × Option Error :=
  let r := c.spi.write data
  ({ c with spi := r.1 }, r.2.map fun _ => Error.Spi)

/-- C10: two hardware-select connectors sharing the same SPI writer
state but differing in the configured display count and scratch buffer
perform identical serial writes and return identical results from
`write_raw`, and neither the display count nor the buffer is changed
by the call. -/
theorem spi_write_raw_ignores_devices (d1 d2 : Nat) (b1 b2 : List Nat)
    (spi : SpiState) (data : List Nat) :
    (SpiConnector.write_raw ⟨d1, b1, spi⟩ data).1.spi =
      (SpiConnector.write_raw ⟨d2, b2, spi⟩ data).1.spi ∧
    (SpiConnector.write_raw ⟨d1, b1, spi⟩ data).2 =
      (SpiConnector.write_raw ⟨d2, b2, spi⟩ data).2 ∧
    (SpiConnector.write_raw ⟨d1, b1, spi⟩ data).1.devices = d1 ∧
    (SpiConnector.write_raw ⟨d1, b1, spi⟩ data).1.buffer = b1 := by
  exact ⟨rfl, rfl, rfl, rfl⟩

/-- State of the software-controlled chip-select pin of
`SpiConnectorSW`: the sequence of levels driven so far (`false` = low,
`true` = high), an operation counter and a fault schedule. The pin's
own error type is opaque, so a failure is `some ()`. -/
structure CsPin where
  count : Nat
  events : List Bool
  fails : Nat → Bool

/-- `cs.set_low()`: drive the chip-select line low. -/
def CsPin.set_low (p : CsPin) : CsPin × Option Unit :=
  if p.fails p.count then
    ({ p with count := p.count + 1 }, some ())
  else
    ({ count := p.count + 1, events := p.events ++ [false], fails := p.fails },
      none)

/-- `cs.set_high()`: drive the chip-select line high. -/
def CsPin.set_high (p : CsPin) : CsPin × Option Unit :=
  if p.fails p.count then
    ({ p with count := p.count + 1 }, some ())
  else
    ({ count := p.count + 1, events := p.events ++ [true], fails := p.fails },
      none)

/-- `SpiConnectorSW` struct from `src/connectors.rs` (lines 108–115). -/
structure SpiConnectorSW where
  spi_c : SpiConnector
  cs : CsPin

/-- `impl Connector for SpiConnectorSW` (`src/connectors.rs` lines
135–141): `self.cs.set_low().map_err(|_| Error::Pin)?;`
`self.spi_c.write_raw(data).map_err(|_| Error::Spi)?;`
`self.cs.set_high().map_err(|_| Error::Pin)?; Ok(())`. -/
def SpiConnectorSW.write_raw (c : SpiConnectorSW) (data : List Nat) :
    SpiConnectorSW × Option Error :=
  match c.cs.set_low with
  | (p, some _) => ({ c with cs := p }, some Error.Pin)
  | (p, none) =>
    match c.spi_c.write_raw data with
    | (sc, some _) => ({ spi_c := sc, cs := p }, some Error.Spi)
    | (sc, none) =>
      match p.set_high with
      | (p2, some _) => ({ spi_c := sc, cs := p2 }, some Error.Pin)
      | (p2, none) => ({ spi_c := sc, cs := p2 }, none)

/-- C8: the software-select transport drives chip-select low, hands the
whole payload to the hardware-select serial send, then drives
chip-select high (first conjunct: with fault-free pin and SPI, the pin
log gains exactly `[low, high]` around a single serial write of
`data`); and if the initial chip-select-low step fails, the serial
write is never attempted (second conjunct: the SPI state is returned
untouched and the result is `Error::Pin`). -/
theorem spi_sw_write_raw_spec (c : SpiConnectorSW) (data : List Nat) :
    ((∀ n, c.cs.fails n = false) →
      c.spi_c.spi.fails c.spi_c.spi.count = false →
      SpiConnectorSW.write_raw c data =
        (⟨⟨c.spi_c.devices, c.spi_c.buffer,
            ⟨c.spi_c.spi.count + 1, c.spi_c.spi.writes ++ [data],
              c.spi_c.spi.fails⟩⟩,
          ⟨c.cs.count + 2, c.cs.events ++ [false, true], c.cs.fails⟩⟩,
          none)) ∧
    (c.cs.fails c.cs.count = true →
      SpiConnectorSW.write_raw c data =
        (⟨c.spi_c, ⟨c.cs.count + 1, c.cs.events, c.cs.fails⟩⟩,
          some Error.Pin)) := by
  constructor
  · intro hcs hspi
    simp only [SpiConnectorSW.write_raw, CsPin.set_low, CsPin.set_high,
      SpiConnector.write_raw, SpiState.write, hcs, hspi, if_false,
      Option.map_none, Bool.false_eq_true]
    simp [List.append_assoc]
  · intro hf
    simp [SpiConnectorSW.write_raw, CsPin.set_low, hf]

/-- C8 witness: a fault-free connector brackets the payload `[1, 2]`
with chip-select low/high (first conjunct), and a connector whose pin
fails immediately returns `Error::Pin` with the SPI log untouched
(second conjunct). -/
theorem spi_sw_write_raw_spec_witness :
    SpiConnectorSW.write_raw
        ⟨⟨1, [0, 0], ⟨0, [], fun _ => false⟩⟩, ⟨0, [], fun _ => false⟩⟩
        [1, 2] =
      (⟨⟨1, [0, 0], ⟨1, [[1, 2]], fun _ => false⟩⟩,
        ⟨2, [false, true], fun _ => false⟩⟩, none) ∧
    SpiConnectorSW.write_raw
        ⟨⟨1, [0, 0], ⟨0, [], fun _ => false⟩⟩, ⟨0, [], fun _ => true⟩⟩
        [1, 2] =
      (⟨⟨1, [0, 0], ⟨0, [], fun _ => false⟩⟩, ⟨1, [], fun _ => true⟩⟩,
        some Error.Pin) := by
  constructor
  · exact (spi_sw_write_raw_spec
      ⟨⟨1, [0, 0], ⟨0, [], fun _ => false⟩⟩, ⟨0, [], fun _ => false⟩⟩
      [1, 2]).1 (fun _ => rfl) rfl
  · exact (spi_sw_write_raw_spec
      ⟨⟨1, [0, 0], ⟨0, [], fun _ => false⟩⟩, ⟨0, [], fun _ => true⟩⟩
      [1, 2]).2 rfl

/-- One observable operation on the GPIO pins of the bit-banged
connector: driving chip-select, data or clock high or low. -/
inductive PinEvent where
  | csLow
  | csHigh
  | dataHigh
  | dataLow
  | sckHigh
  | sckLow
deriving DecidableEq, Repr

/-- `PinConnector` from `src/connectors.rs` (lines 23–32), seen through
its observable behaviour: the three output pins (`data`, `cs`, `sck`)
form one sequential pin subsystem with a shared operation counter, the
trace of pin operations performed so far, and a fault schedule deciding
which pin operation (by index) fails. -/
structure PinConnector where
  count : Nat
  trace : List PinEvent
  fails : Nat → Bool

/-- One raw pin operation (`set_high`/`set_low` on one of the three
pins): consult the fault schedule; on success record the event. The
pin's own error type is opaque, so a failure is `some ()`. -/
def PinConnector.op (s : PinConnector) (e : PinEvent) :
    PinConnector × Option Unit :=
  if s.fails s.count then
    ({ s with count := s.count + 1 }, some ())
  else
    ({ count := s.count + 1, trace := s.trace ++ [e], fails := s.fails },
      none)

/-- The `.map_err(|_| Error::Pin)` applied to every pin call in
`PinConnector::write_raw`. -/
def pinErr (r : PinConnector × Option Unit) : PinConnector × Option Error :=
  (r.1, r.2.map fun _ => Error.Pin)

/-- Body of the inner `for i in 0..8` loop of `PinConnector::write_raw`
(`src/connectors.rs` lines 56–65): set the data line according to bit
`7 - i` of `value` (most significant first), then pulse the clock high
then low; each pin call propagates failure via `?`. -/
def writeBit (value i : Nat) (s : PinConnector) : PinConnector × Option Error :=
  bindE
    (if value &&& (1 <<< (7 - i)) > 0 then
      pinErr (s.op PinEvent.dataHigh)
    else
      pinErr (s.op PinEvent.dataLow))
    (fun s =>
      bindE (pinErr (s.op PinEvent.sckHigh))
        (fun s => pinErr (s.op PinEvent.sckLow)))

/-- The `for i in 0..8` loop over the bits of one byte. -/
def writeByte (s : PinConnector) (value : Nat) : PinConnector × Option Error :=
  (List.range 8).foldl (fun r i => bindE r (fun s => writeBit value i s)) (s, none)

/-- `impl Connector for PinConnector::write_raw` (`src/connectors.rs`
lines 51–70): chip-select low, every byte bit-banged MSB-first, then
chip-select high; the first failing pin call aborts via `?`. -/
def PinConnector.write_raw (s : PinConnector) (data : List Nat) :
    PinConnector × Option Error :=
  bindE (pinErr (s.op PinEvent.csLow)) (fun s1 =>
    bindE (data.foldl (fun r v => bindE r (fun s => writeByte s v)) (s1, none))
      (fun s2 => pinErr (s2.op PinEvent.csHigh)))

/-- The three pin events one bit of one byte should produce. -/
def bitEvents (value i : Nat) : List PinEvent :=
  [if value &&& (1 <<< (7 - i)) > 0 then PinEvent.dataHigh else PinEvent.dataLow,
    PinEvent.sckHigh, PinEvent.sckLow]

/-- The 24 pin events one byte should produce: 8 bits MSB-first, each a
data-line level followed by a clock pulse. -/
def byteEvents (value : Nat) : List PinEvent :=
  (List.range 8).flatMap (bitEvents value)

/-- The full expected event sequence of one `write_raw` call:
chip-select low, the bytes in order, chip-select high. -/
def rawEvents (data : List Nat) : List PinEvent :=
  PinEvent.csLow :: data.flatMap byteEvents ++ [PinEvent.csHigh]

/-- Reference interpreter: perform a given list of pin operations in
order, aborting at the first failure. -/
def runEvents (s : PinConnector) (es : List PinEvent) :
    PinConnector × Option Error :=
  es.foldl (fun r e => bindE r (fun s => pinErr (s.op e))) (s, none)

theorem bindE_none {σ : Type} (s : σ) (f : σ → σ × Option Error) :
    bindE (s, none) f = f s := rfl

theorem bindE_some {σ : Type} (s : σ) (e : Error)
    (f : σ → σ × Option Error) : bindE (s, some e) f = (s, some e) := rfl

theorem bindE_assoc {σ : Type} (r : σ × Option Error)
    (f g : σ → σ × Option Error) :
    bindE (bindE r f) g = bindE r (fun s => bindE (f s) g) := by
  rcases r with ⟨s, _ | e⟩ <;> rfl

/-- A short-circuiting fold keeps an already-failed accumulator. -/
theorem foldl_bindE_error {α σ : Type} (g : α → σ → σ × Option Error)
    (xs : List α) (s : σ) (e : Error) :
    xs.foldl (fun r x => bindE r (g x)) (s, some e) = (s, some e) := by
  induction xs with
  | nil => rfl
  | cons x xs ih => simpa [bindE] using ih

theorem runEvents_append (s : PinConnector) (a b : List PinEvent) :
    runEvents s (a ++ b) =
      bindE (runEvents s a) (fun s2 => runEvents s2 b) := by
  unfold runEvents
  rw [List.foldl_append]
  rcases h : List.foldl (fun r e => bindE r (fun s => pinErr (s.op e))) (s, none) a
    with ⟨s2, _ | e⟩
  · rfl
  · exact foldl_bindE_error _ b s2 e

theorem writeBit_eq_runEvents (value i : Nat) (s : PinConnector) :
    writeBit value i s = runEvents s (bitEvents value i) := by
  by_cases h : value &&& (1 <<< (7 - i)) > 0 <;>
    simp [writeBit, bitEvents, runEvents, h, bindE_assoc, bindE_none]

/-- The inner bit loop of `write_raw` is the `runEvents` run of the
concatenated per-bit event sequences. -/
theorem foldl_writeBit (value : Nat) (xs : List Nat) :
    ∀ r : PinConnector × Option Error,
      xs.foldl (fun r i => bindE r (fun s => writeBit value i s)) r =
        bindE r (fun s => runEvents s (xs.flatMap (bitEvents value))) := by
  induction xs with
  | nil =>
    intro r
    rcases r with ⟨s, _ | e⟩ <;> rfl
  | cons x xs ih =>
    intro r
    rw [List.foldl_cons, ih, bindE_assoc]
    simp only [List.flatMap_cons, writeBit_eq_runEvents, runEvents_append]

theorem writeByte_eq_runEvents (s : PinConnector) (value : Nat) :
    writeByte s value = runEvents s (byteEvents value) := by
  unfold writeByte byteEvents
  rw [foldl_writeBit value (List.range 8) ((s, none)), bindE_none]

/-- The byte loop of `write_raw` is the `runEvents` run of the
concatenated per-byte event sequences. -/
theorem foldl_writeByte (data : List Nat) :
    ∀ r : PinConnector × Option Error,
      data.foldl (fun r v => bindE r (fun s => writeByte s v)) r =
        bindE r (fun s => runEvents s (data.flatMap byteEvents)) := by
  induction data with
  | nil =>
    intro r
    rcases r with ⟨s, _ | e⟩ <;> rfl
  | cons x xs ih =>
    intro r
    rw [List.foldl_cons, ih, bindE_assoc]
    simp only [List.flatMap_cons, writeByte_eq_runEvents, runEvents_append]

theorem write_raw_eq_runEvents (s : PinConnector) (data : List Nat) :
    PinConnector.write_raw s data = runEvents s (rawEvents data) := by
  have hmid : ∀ s1 : PinConnector,
      List.foldl (fun r v => bindE r (fun s => writeByte s v)) ((s1, none)) data =
        runEvents s1 (data.flatMap byteEvents) :=
    fun s1 => foldl_writeByte data ((s1, none))
  unfold PinConnector.write_raw
  simp only [hmid]
  have hraw : rawEvents data =
      [PinEvent.csLow] ++ (data.flatMap byteEvents ++ [PinEvent.csHigh]) := rfl
  rw [hraw, runEvents_append]
  simp only [runEvents_append]
  rfl

/-- A fault-free run performs every requested pin operation in order. -/
theorem runEvents_ok (es : List PinEvent) :
    ∀ s : PinConnector, (∀ n, s.fails n = false) →
      runEvents s es =
        (⟨s.count + es.length, s.trace ++ es, s.fails⟩, none) := by
  induction es with
  | nil =>
    intro s _
    simp [runEvents]
  | cons e es ih =>
    intro s hs
    have hop : pinErr (s.op e) =
        (⟨s.count + 1, s.trace ++ [e], s.fails⟩, none) := by
      simp [PinConnector.op, pinErr, hs s.count]
    have hstep : runEvents s (e :: es) =
        runEvents ⟨s.count + 1, s.trace ++ [e], s.fails⟩ es := by
      unfold runEvents
      rw [List.foldl_cons, bindE_none, hop]
    rw [hstep, ih ⟨s.count + 1, s.trace ++ [e], s.fails⟩ (fun n => hs n)]
    have h1 : s.count + 1 + es.length = s.count + (es.length + 1) := by omega
    simp [List.append_assoc, List.length_cons, h1]

/-- A run whose first fault is at operation `k` performs exactly the
first `k` operations, then returns `Error::Pin` and stops. -/
theorem runEvents_fail (es : List PinEvent) :
    ∀ (s : PinConnector) (k : Nat),
      (∀ n, n < k → s.fails (s.count + n) = false) →
      s.fails (s.count + k) = true →
      k < es.length →
      runEvents s es =
        (⟨s.count + k + 1, s.trace ++ es.take k, s.fails⟩, some Error.Pin) := by
  induction es with
  | nil =>
    intro s k _ _ hk
    simp at hk
  | cons e es ih =>
    intro s k hbefore hat hk
    rcases k with _ | k2
    · have hf : s.fails s.count = true := by simpa using hat
      have hop : pinErr (s.op e) =
          (⟨s.count + 1, s.trace, s.fails⟩, some Error.Pin) := by
        simp [PinConnector.op, pinErr, hf]
      unfold runEvents
      rw [List.foldl_cons, bindE_none, hop, foldl_bindE_error]
      simp
    · have h0 : s.fails s.count = false := by
        simpa using hbefore 0 (Nat.succ_pos k2)
      have hop : pinErr (s.op e) =
          (⟨s.count + 1, s.trace ++ [e], s.fails⟩, none) := by
        simp [PinConnector.op, pinErr, h0]
      have hstep : runEvents s (e :: es) =
          runEvents ⟨s.count + 1, s.trace ++ [e], s.fails⟩ es := by
        unfold runEvents
        rw [List.foldl_cons, bindE_none, hop]
      have hb2 : ∀ n, n < k2 →
          (⟨s.count + 1, s.trace ++ [e], s.fails⟩ : PinConnector).fails
            (s.count + 1 + n) = false := by
        intro n hn
        have := hbefore (n + 1) (by omega)
        simpa [Nat.add_assoc, Nat.add_comm 1 n] using this
      have hat2 : (⟨s.count + 1, s.trace ++ [e], s.fails⟩ : PinConnector).fails
          (s.count + 1 + k2) = true := by
        have : s.count + 1 + k2 = s.count + (k2 + 1) := by omega
        rw [this]
        exact hat
      have hk2 : k2 < es.length := by
        simpa using Nat.lt_of_succ_lt_succ hk
      rw [hstep, ih _ k2 hb2 hat2 hk2]
      have hcnt : s.count + 1 + k2 + 1 = s.count + (k2 + 1) + 1 := by omega
      simp [hcnt, List.append_assoc]

/-- C3: for every byte sequence, `write_raw` drives chip-select low,
then for each byte in order and each of its 8 bits MSB-first sets the
data line to the bit value and pulses the clock high then low, then
drives chip-select high (first conjunct: a fault-free run appends
exactly `rawEvents data` to the pin trace and succeeds); and the first
failing pin operation aborts the remaining transfer immediately and is
returned as `Error::Pin` with no retry (second conjunct: if operation
`k` is the first to fail, exactly the first `k` events happen and the
call returns `Error::Pin`). -/
theorem pin_write_raw_spec (s : PinConnector) (data : List Nat) :
    ((∀ n, s.fails n = false) →
      PinConnector.write_raw s data =
        (⟨s.count + (rawEvents data).length, s.trace ++ rawEvents data,
          s.fails⟩, none)) ∧
    (∀ k : Nat,
      (∀ n, n < k → s.fails (s.count + n) = false) →
      s.fails (s.count + k) = true →
      k < (rawEvents data).length →
      PinConnector.write_raw s data =
        (⟨s.count + k + 1, s.trace ++ (rawEvents data).take k, s.fails⟩,
          some Error.Pin)) := by
  constructor
  · intro hs
    rw [write_raw_eq_runEvents]
    exact runEvents_ok (rawEvents data) s hs
  · intro k hbefore hat hk
    rw [write_raw_eq_runEvents]
    exact runEvents_fail (rawEvents data) s k hbefore hat hk

/-- C3 witness: on the byte `0b10110010 = 178` with fault-free pins,
`write_raw` emits chip-select low, the data-line levels
1,0,1,1,0,0,1,0 each followed by a clock pulse, then chip-select high
(first conjunct); with the pin subsystem failing at operation index 3,
only the first three events happen and the call aborts with
`Error::Pin` (second conjunct). -/
theorem pin_write_raw_spec_witness :
    PinConnector.write_raw ⟨0, [], fun _ => false⟩ [178] =
      (⟨26, [PinEvent.csLow,
        PinEvent.dataHigh, PinEvent.sckHigh, PinEvent.sckLow,
        PinEvent.dataLow, PinEvent.sckHigh, PinEvent.sckLow,
        PinEvent.dataHigh, PinEvent.sckHigh, PinEvent.sckLow,
        PinEvent.dataHigh, PinEvent.sckHigh, PinEvent.sckLow,
        PinEvent.dataLow, PinEvent.sckHigh, PinEvent.sckLow,
        PinEvent.dataLow, PinEvent.sckHigh, PinEvent.sckLow,
        PinEvent.dataHigh, PinEvent.sckHigh, PinEvent.sckLow,
        PinEvent.dataLow, PinEvent.sckHigh, PinEvent.sckLow,
        PinEvent.csHigh], fun _ => false⟩, none) ∧
    PinConnector.write_raw ⟨0, [], fun n => n == 3⟩ [178] =
      (⟨4, [PinEvent.csLow, PinEvent.dataHigh, PinEvent.sckHigh],
        fun n => n == 3⟩, some Error.Pin) := by
  constructor
  · exact (pin_write_raw_spec ⟨0, [], fun _ => false⟩ [178]).1 (fun _ => rfl)
  · exact (pin_write_raw_spec ⟨0, [], fun n => n == 3⟩ [178]).2 3
      (by decide) (by rfl) (by decide)
